import Mathlib

/-!
Verification of the HealthPlanCompare cost-accumulation engine
(`src/utils/DataManager.js`, class `CostCalculator`), shallowly embedded in
Lean 4.  Dollar amounts are modelled as exact rationals (`ℚ`): every JS
arithmetic operation the embedded code performs on the relevant domain
(integer-dollar inputs, `Math.min`/`Math.max`, `+`, `-`, `*`) is exact in
IEEE doubles well below 2^53, and the two non-integer constants involved
(`365 / count` and `day / 30.4`) are shown below to agree with exact
integer arithmetic on the whole domain the program uses.  Errors thrown by
the JS code are modelled with `Except`/`Option` carrying a `CalcError`
tag; console output is side effect only and is not modelled, except for
the validator's warnings, which are reified as lists (`planNegativeWarnings`,
the second component of `validateMedication`).
-/

namespace HealthPlan

/-- JS numeric truthiness fallback `x || y`: `0` (and only `0`, after
validation has excluded `NaN`) is falsy, every other number — including
negative numbers — is truthy. -/
def jsOr (x y : ℚ) : ℚ := if x = 0 then y else x

/-- JS `x || Infinity` for a cap: `none` models `Infinity` (no cap). -/
def jsOrInf (x : ℚ) : Option ℚ := if x = 0 then none else some x

/-- JS `Math.min(v, cap)` where `cap` may be `Infinity` (`none`). -/
def minCap (v : ℚ) : Option ℚ → ℚ
  | none => v
  | some c => min v c

/-- JS `Math.floor(day / 30.4)`.  For every integer `0 ≤ day < 2^49` the JS
double computation `Math.floor(day / 30.4)` equals `⌊10 * day / 304⌋`:
the rounded double `30.4` is below the real value by about `1.4e-15`, so
the quotient's relative error is under `4.7e-17`, less than half an ulp;
the correctly rounded quotient therefore lands on the exact rational
quotient's side of every integer boundary.  We use the exact form. -/
def monthOf (day : ℕ) : ℕ := day * 10 / 304

inductive ServiceType
  | primaryVisit
  | specialistVisit
  | therapySession
  | labWork
  | imaging
  | physicalTherapy
  | medication
deriving DecidableEq, Inhabited

inductive EventType
  | medical
  | medication
deriving DecidableEq, Inhabited

/-- Explicit drug-cost type tag (`tierNDrugCostType` field): the JS field
is the string `'copay'` or `'coinsurance'`; absence (legacy plans) is
modelled by `Option.none` at the use site. -/
inductive DrugCostType
  | copay
  | coinsurance
deriving DecidableEq, Inhabited

inductive Relationship
  | self
  | spouse
  | child
  | other
deriving DecidableEq, Inhabited

/-- Error tags standing for the `Error` messages the JS code throws or
stores (`error.message`); the exact message strings are display-only. -/
inductive CalcError
  | missingId
  | missingName
  | invalidNumeric (field : ℕ)
  | noProgressionData
  | noPlansProvided
  | noFamilyData
  | internalFault
deriving DecidableEq, Inhabited

/-- A plan as produced by `validateAndNormalizePlan`: every numeric field
is a number (absent fields were defaulted to `0`; note the validator does
NOT clamp negative values, see `validateAndNormalizePlan` below).
`mentalHealthCopay` is not among the validator's `numericFields`, so on a
normalized plan it is always `0` (JS `undefined`, falsy); it is kept as a
field because `getCopayForService` reads it.  String identity fields
(`name`, `insurer`, `planType`) are display-only and omitted. -/
structure Plan where
  id : ℕ
  monthlyPremium : ℚ := 0
  spousePremium : ℚ := 0
  familyPremium : ℚ := 0
  individualDeductible : ℚ := 0
  familyDeductible : ℚ := 0
  individualOOPMax : ℚ := 0
  familyOOPMax : ℚ := 0
  primaryCopay : ℚ := 0
  specialistCopay : ℚ := 0
  mentalHealthCopay : ℚ := 0
  rxDeductible : ℚ := 0
  tier1DrugCost : ℚ := 0
  tier2DrugCost : ℚ := 0
  tier3DrugCost : ℚ := 0
  specialtyDrugCost : ℚ := 0
  tier1DrugCostType : Option DrugCostType := none
  tier2DrugCostType : Option DrugCostType := none
  tier3DrugCostType : Option DrugCostType := none
  specialtyDrugCostType : Option DrugCostType := none
  coinsurance : ℚ := 0
deriving DecidableEq, Inhabited

/-- A medication as produced by `validateFamilyData` (`name`/`id` are
display-only and omitted). -/
structure Medication where
  tier : ℤ := 1
  monthlyCost : ℚ := 0
  quantity : ℤ := 1
deriving DecidableEq, Inhabited

/-- A family member as produced by `validateFamilyData` (`name` is
display-only and omitted). -/
structure Member where
  id : ℕ
  relationship : Relationship := Relationship.other
  age : ℤ := 35
  isActive : Bool := true
  primaryVisits : ℕ := 0
  specialistVisits : ℕ := 0
  therapyVisits : ℕ := 0
  labWork : ℕ := 0
  imaging : ℕ := 0
  physicalTherapy : ℕ := 0
  medications : List Medication := []
deriving DecidableEq, Inhabited

/-- The service-cost table keys read by `generateFamilyUsageTimeline`. -/
structure ServiceCosts where
  primaryVisit : ℚ := 0
  specialistVisit : ℚ := 0
  therapySession : ℚ := 0
  labWork : ℚ := 0
  basicImaging : ℚ := 0
  physicalTherapy : ℚ := 0
deriving DecidableEq, Inhabited

/-- One usage event.  Medical events carry no tier in JS (`undefined`);
the default `1` is never read for them (`calculateTierCost` is only
reached from the medication branch).  `memberName`/`medicationName` are
display-only and omitted. -/
structure UsageEvent where
  day : ℕ
  memberId : ℕ
  eventType : EventType
  serviceType : ServiceType
  tier : ℤ := 1
  grossCost : ℚ
deriving DecidableEq, Inhabited

/-- Return value of `processEventUnderPlan`. -/
structure EventResult where
  memberCost : ℚ
  appliedToFamilyDeductible : ℚ
  appliedToIndividualDeductible : ℚ
  appliedToRxDeductible : ℚ
deriving DecidableEq, Inhabited

structure FamilyState where
  deductibleUsed : ℚ := 0
  rxDeductibleUsed : ℚ := 0
  oopUsed : ℚ := 0
deriving DecidableEq, Inhabited

structure MemberState where
  deductibleUsed : ℚ := 0
  oopUsed : ℚ := 0
deriving DecidableEq, Inhabited

inductive CoverageType
  | individual
  | employeeSpouse
  | family
deriving DecidableEq, Inhabited

structure PremiumTier where
  coverageType : CoverageType
  monthlyPremium : ℚ
deriving DecidableEq, Inhabited

/-- One row of a plan progression (`applyPlanRules`).  The echoed
display-only strings (`memberName`, `planName`, `medicationName`) are
omitted. -/
structure ProgressionRow where
  day : ℕ
  memberId : ℕ
  eventType : EventType
  serviceType : ServiceType
  tier : ℤ
  grossCost : ℚ
  eventCost : ℚ
  cumulativePremium : ℚ
  cumulativeOOP : ℚ
  cumulativeTotal : ℚ
  familyDeductibleUsed : ℚ
  familyRxDeductibleUsed : ℚ
  familyOOPUsed : ℚ
  individualDeductibleUsed : ℚ
  individualOOPUsed : ℚ
  planId : ℕ
  monthlyPremium : ℚ
  coverageType : CoverageType
deriving DecidableEq, Inhabited

/-- Embeds `getCopayForService`: `copayMap[serviceType] || 0`; for
`therapySession` the JS reads `plan.mentalHealthCopay || plan.primaryCopay`. -/
def getCopayForService (plan : Plan) : ServiceType → ℚ
  | ServiceType.primaryVisit => plan.primaryCopay
  | ServiceType.specialistVisit => plan.specialistCopay
  | ServiceType.therapySession => jsOr plan.mentalHealthCopay plan.primaryCopay
  | _ => 0

/-- Embeds `calculatePostDeductibleCost`: the JS guard `copay && copay > 0` is
equivalent to `copay > 0`; `plan.coinsurance || 0` is the identity on a
number. -/
def calculatePostDeductibleCost (plan : Plan) (serviceType : ServiceType) (cost : ℚ) : ℚ :=
  let copay := getCopayForService plan serviceType
  if copay > 0 then min copay cost else cost * plan.coinsurance

/-- Embeds `tierKeys[tier] || 'tier1DrugCost'`: tiers 2, 3 and 4 select their own
cost/type pair, every other tier value falls back to tier 1. -/
def tierCostEntry (plan : Plan) (tier : ℤ) : ℚ × Option DrugCostType :=
  if tier = 2 then (plan.tier2DrugCost, plan.tier2DrugCostType)
  else if tier = 3 then (plan.tier3DrugCost, plan.tier3DrugCostType)
  else if tier = 4 then (plan.specialtyDrugCost, plan.specialtyDrugCostType)
  else (plan.tier1DrugCost, plan.tier1DrugCostType)

/-- Embeds `calculateTierCost`. -/
def calculateTierCost (plan : Plan) (tier : ℤ) (cost : ℚ) : ℚ :=
  if cost = 0 then 0
  else
    let entry := tierCostEntry plan tier
    let tierCost := entry.1
    match entry.2 with
    | some DrugCostType.coinsurance =>
        let coinsuranceRate := if tierCost > 1 then tierCost / 100 else tierCost
        cost * coinsuranceRate
    | some DrugCostType.copay => min tierCost cost
    | none => if tierCost < 1 then cost * tierCost else min tierCost cost

/-- Embeds `plan.familyDeductible || plan.individualDeductible * 2 || 0`. -/
def effFamilyDeductible (plan : Plan) : ℚ :=
  jsOr plan.familyDeductible (plan.individualDeductible * 2)

/-- Embeds `plan.familyOOPMax || plan.individualOOPMax * 2 || Infinity`. -/
def famOOPCap (plan : Plan) : Option ℚ :=
  jsOrInf (jsOr plan.familyOOPMax (plan.individualOOPMax * 2))

/-- Embeds `processMedicalEventUnderPlan`. -/
def processMedicalEventUnderPlan (plan : Plan) (e : UsageEvent)
    (familyState : FamilyState) (memberState : MemberState) : EventResult :=
  let familyDeductible := effFamilyDeductible plan
  let individualDeductible := plan.individualDeductible
  let remainingFamilyDeductible := max 0 (familyDeductible - familyState.deductibleUsed)
  let remainingIndividualDeductible := max 0 (individualDeductible - memberState.deductibleUsed)
  let effectiveDeductible := min remainingFamilyDeductible remainingIndividualDeductible
  if effectiveDeductible > 0 then
    let appliedToDeductible := min e.grossCost effectiveDeductible
    let remainingCost := e.grossCost - appliedToDeductible
    let postCost :=
      if remainingCost > 0 then calculatePostDeductibleCost plan e.serviceType remainingCost else 0
    { memberCost := appliedToDeductible + postCost
      appliedToFamilyDeductible := appliedToDeductible
      appliedToIndividualDeductible := appliedToDeductible
      appliedToRxDeductible := 0 }
  else
    { memberCost := calculatePostDeductibleCost plan e.serviceType e.grossCost
      appliedToFamilyDeductible := 0
      appliedToIndividualDeductible := 0
      appliedToRxDeductible := 0 }

/-- Embeds `processMedicationEventUnderPlan`. -/
def processMedicationEventUnderPlan (plan : Plan) (e : UsageEvent)
    (familyState : FamilyState) (memberState : MemberState) : EventResult :=
  let rxDeductible := plan.rxDeductible
  if rxDeductible > 0 then
    let remainingRxDeductible := max 0 (rxDeductible - familyState.rxDeductibleUsed)
    if remainingRxDeductible > 0 ∧ e.grossCost > 0 then
      let appliedToDeductible := min e.grossCost remainingRxDeductible
      let remainingCost := e.grossCost - appliedToDeductible
      let tierPart := if remainingCost > 0 then calculateTierCost plan e.tier remainingCost else 0
      { memberCost := appliedToDeductible + tierPart
        appliedToFamilyDeductible := 0
        appliedToIndividualDeductible := 0
        appliedToRxDeductible := appliedToDeductible }
    else
      { memberCost := calculateTierCost plan e.tier e.grossCost
        appliedToFamilyDeductible := 0
        appliedToIndividualDeductible := 0
        appliedToRxDeductible := 0 }
  else
    let familyDeductible := effFamilyDeductible plan
    let individualDeductible := plan.individualDeductible
    let remainingFamilyDeductible := max 0 (familyDeductible - familyState.deductibleUsed)
    let remainingIndividualDeductible := max 0 (individualDeductible - memberState.deductibleUsed)
    let effectiveDeductible := min remainingFamilyDeductible remainingIndividualDeductible
    if effectiveDeductible > 0 ∧ e.grossCost > 0 then
      let appliedToDeductible := min e.grossCost effectiveDeductible
      let remainingCost := e.grossCost - appliedToDeductible
      let tierPart := if remainingCost > 0 then calculateTierCost plan e.tier remainingCost else 0
      { memberCost := appliedToDeductible + tierPart
        appliedToFamilyDeductible := appliedToDeductible
        appliedToIndividualDeductible := appliedToDeductible
        appliedToRxDeductible := 0 }
    else
      { memberCost := calculateTierCost plan e.tier e.grossCost
        appliedToFamilyDeductible := 0
        appliedToIndividualDeductible := 0
        appliedToRxDeductible := 0 }

/-- Embeds the `processEventUnderPlan` dispatch. -/
def processEventUnderPlan (plan : Plan) (e : UsageEvent)
    (familyState : FamilyState) (memberState : MemberState) : EventResult :=
  match e.eventType with
  | EventType.medical => processMedicalEventUnderPlan plan e familyState memberState
  | EventType.medication => processMedicationEventUnderPlan plan e familyState memberState

/-- Embeds `determinePremiumTier`.  `plan.monthlyPremium || 0` is the identity
on a number, and `plan.familyPremium || plan.monthlyPremium || 0`
collapses to `jsOr`. -/
def determinePremiumTier (plan : Plan) (members : List Member) : PremiumTier :=
  if members.length = 1 then
    { coverageType := CoverageType.individual, monthlyPremium := plan.monthlyPremium }
  else if members.length = 2
      ∧ ¬ members.any (fun m => m.relationship = Relationship.child ∨ m.age < 18)
      ∧ plan.spousePremium ≠ 0 then
    { coverageType := CoverageType.employeeSpouse, monthlyPremium := plan.spousePremium }
  else
    { coverageType := CoverageType.family
      monthlyPremium := jsOr plan.familyPremium plan.monthlyPremium }

/-- Family-wide plus per-member accumulator state carried across the event
loop of `applyPlanRules`.  The JS `memberStates` object holds one
zero-initialized record per listed member; a total function that is zero
everywhere agrees with it at every listed member id. -/
structure CalcState where
  family : FamilyState
  memberStates : ℕ → MemberState

def initState : CalcState :=
  { family := {}, memberStates := fun _ => {} }

/-- The body of the event loop of `applyPlanRules`: processes one usage
event, producing the progression row and the updated state, in the exact
order of the JS statements (individual cap first, then family state,
then the family cap applied to the reported cumulative figures). -/
def applyStep (plan : Plan) (monthlyPremium : ℚ) (coverageType : CoverageType)
    (s : CalcState) (e : UsageEvent) : ProgressionRow × CalcState :=
  let eventResult := processEventUnderPlan plan e s.family (s.memberStates e.memberId)
  let ms := s.memberStates e.memberId
  let newMemberDeductible := ms.deductibleUsed + eventResult.appliedToIndividualDeductible
  let newIndividualOOP := ms.oopUsed + eventResult.memberCost
  let individualOOPMax := jsOrInf plan.individualOOPMax
  let cappedIndividualOOP := minCap newIndividualOOP individualOOPMax
  let actualMemberCost := cappedIndividualOOP - ms.oopUsed
  let fam : FamilyState :=
    { deductibleUsed := s.family.deductibleUsed + eventResult.appliedToFamilyDeductible
      rxDeductibleUsed := s.family.rxDeductibleUsed + eventResult.appliedToRxDeductible
      oopUsed := s.family.oopUsed + actualMemberCost }
  let currentMonth := monthOf e.day
  let cumulativePremium := monthlyPremium * (currentMonth + 1)
  let cappedFamilyOOP := minCap fam.oopUsed (famOOPCap plan)
  let cumulativeTotal := cumulativePremium + cappedFamilyOOP
  let row : ProgressionRow :=
    { day := e.day
      memberId := e.memberId
      eventType := e.eventType
      serviceType := e.serviceType
      tier := e.tier
      grossCost := e.grossCost
      eventCost := actualMemberCost
      cumulativePremium := cumulativePremium
      cumulativeOOP := cappedFamilyOOP
      cumulativeTotal := cumulativeTotal
      familyDeductibleUsed := fam.deductibleUsed
      familyRxDeductibleUsed := fam.rxDeductibleUsed
      familyOOPUsed := fam.oopUsed
      individualDeductibleUsed := newMemberDeductible
      individualOOPUsed := cappedIndividualOOP
      planId := plan.id
      monthlyPremium := monthlyPremium
      coverageType := coverageType }
  (row, { family := fam
          memberStates := fun i =>
            if i = e.memberId then
              { deductibleUsed := newMemberDeductible, oopUsed := cappedIndividualOOP }
            else s.memberStates i })

/-- The event loop of `applyPlanRules` as a state-passing recursion. -/
def applyRows (plan : Plan) (monthlyPremium : ℚ) (coverageType : CoverageType)
    (s : CalcState) : List UsageEvent → List ProgressionRow
  | [] => []
  | e :: es =>
    let r := applyStep plan monthlyPremium coverageType s e
    r.1 :: applyRows plan monthlyPremium coverageType r.2 es

/-- Embeds `applyPlanRules`. -/
def applyPlanRules (plan : Plan) (usageTable : List UsageEvent) (members : List Member) :
    List ProgressionRow :=
  let pt := determinePremiumTier plan members
  applyRows plan pt.monthlyPremium pt.coverageType initState usageTable

/-- Day of occurrence `i` for a service with annual count `count` in
`generateFamilyUsageTimeline`:
`daysBetweenEvents = Math.floor(365 / count)` and
`dayOfYear = Math.floor(daysBetweenEvents * i + daysBetweenEvents / 2)`.
For `count ≥ 1` the double `365 / count` is correctly rounded and never
within `1/count` of a non-attained integer, so `Math.floor(365 / count)`
is Nat division; `daysBetweenEvents * i + daysBetweenEvents / 2` is a
(half-)integer computed exactly, so its floor is
`daysBetweenEvents * i + daysBetweenEvents / 2` in Nat arithmetic. -/
def serviceOccurrenceDay (count i : ℕ) : ℕ :=
  let daysBetweenEvents := 365 / count
  daysBetweenEvents * i + daysBetweenEvents / 2

/-- The inner loop of `generateFamilyUsageTimeline` for one annual
service entry: `count` events, evenly spaced. -/
def serviceEvents (m : Member) (st : ServiceType) (count : ℕ) (cost : ℚ) : List UsageEvent :=
  if 0 < count then
    (List.range count).map fun i =>
      { day := serviceOccurrenceDay count i
        memberId := m.id
        eventType := EventType.medical
        serviceType := st
        grossCost := cost }
  else []

/-- The medication loop of `generateFamilyUsageTimeline`: skip
medications with `monthlyCost ≤ 0` (JS: `!monthlyCost || monthlyCost <= 0`),
otherwise 12 events on day `month * 30 + 1`; `parseInt(tier) || 1`
maps a zero tier to 1. -/
def medicationEvents (m : Member) (med : Medication) : List UsageEvent :=
  if med.monthlyCost ≤ 0 then []
  else
    (List.range 12).map fun month =>
      { day := month * 30 + 1
        memberId := m.id
        eventType := EventType.medication
        serviceType := ServiceType.medication
        tier := if med.tier = 0 then 1 else med.tier
        grossCost := med.monthlyCost }

/-- All events of one member, in the generation order of the JS loops
(`annualServices` array order, then medications). -/
def memberEvents (serviceCosts : ServiceCosts) (m : Member) : List UsageEvent :=
  serviceEvents m ServiceType.primaryVisit m.primaryVisits serviceCosts.primaryVisit ++
  serviceEvents m ServiceType.specialistVisit m.specialistVisits serviceCosts.specialistVisit ++
  serviceEvents m ServiceType.therapySession m.therapyVisits serviceCosts.therapySession ++
  serviceEvents m ServiceType.labWork m.labWork serviceCosts.labWork ++
  serviceEvents m ServiceType.imaging m.imaging serviceCosts.basicImaging ++
  serviceEvents m ServiceType.physicalTherapy m.physicalTherapy serviceCosts.physicalTherapy ++
  (m.medications.map (medicationEvents m)).flatten

/-- Stable insertion used to model `events.sort((a, b) => a.day - b.day)`
(ECMAScript `Array.prototype.sort` is stable): an element is inserted
after every already-placed element with a smaller or equal day. -/
def insertByDay (e : UsageEvent) : List UsageEvent → List UsageEvent
  | [] => [e]
  | x :: xs => if x.day ≤ e.day then x :: insertByDay e xs else e :: x :: xs

def sortByDay (l : List UsageEvent) : List UsageEvent :=
  l.foldl (fun acc e => insertByDay e acc) []

/-- Embeds `generateFamilyUsageTimeline`. -/
def generateFamilyUsageTimeline (members : List Member) (serviceCosts : ServiceCosts) :
    List UsageEvent :=
  sortByDay ((members.map (memberEvents serviceCosts)).flatten)

/-- Embeds `FamilyManager.getFamilyData()` (the calculation call site in
`EnvConfig.js` obtains the member list through it): only members whose
`isActive` flag is set flow into `calculateAll`. -/
def activeMembers (members : List Member) : List Member :=
  members.filter (·.isActive)

structure FamilyTotals where
  medicalCosts : ℚ
  rxCosts : ℚ
  totalOutOfPocket : ℚ
  totalWithPremiums : ℚ
deriving DecidableEq, Inhabited

structure MonthBucket where
  month : ℕ
  totalCost : ℚ
  events : ℕ
deriving DecidableEq, Inhabited

/-- Comparison metadata (`addComparisonMetrics` / `createErrorResult`).
`savingsVsBest = none` models the JS `Infinity` placed by
`createErrorResult`; `percentageMoreThanBest` is display-only (and
NaN/Infinity-valued when the best total is zero) and omitted. -/
structure ComparisonData where
  isBest : Bool
  isWorst : Bool
  savingsVsBest : Option ℚ
  rank : ℕ
deriving DecidableEq, Inhabited

/-- A plan result.  Display-only fields of the JS object (`planName`,
`insurer`, `memberResults`, `scenarios`, `timeline`, `milestones`,
`coverageType`, `planDetails`) are omitted; no claim refers to them.
`comparison = none` models the field being absent until
`addComparisonMetrics` (or `createErrorResult`) sets it. -/
structure PlanResult where
  planId : ℕ
  error : Option CalcError := none
  annualPremium : ℚ
  familyTotals : FamilyTotals
  monthlyAccumulation : List MonthBucket := []
  monthlyPremium : ℚ := 0
  comparison : Option ComparisonData := none
deriving DecidableEq, Inhabited

/-- Embeds `createErrorResult`: zeroed totals and a comparison block marking the
plan worst with rank 999.  The JS object carries no `monthlyPremium` or
`monthlyAccumulation` field (undefined); `0` / `[]` stand for that. -/
def createErrorResult (plan : Plan) (err : CalcError) : PlanResult :=
  { planId := plan.id
    error := some err
    annualPremium := plan.monthlyPremium * 12
    familyTotals := { medicalCosts := 0, rxCosts := 0, totalOutOfPocket := 0, totalWithPremiums := 0 }
    monthlyAccumulation := []
    monthlyPremium := 0
    comparison := some { isBest := false, isWorst := true, savingsVsBest := none, rank := 999 } }

/-- The 12 zero-initialized buckets of `generateMonthlyAccumulation`. -/
def initMonthlyData : List MonthBucket :=
  (List.range 12).map fun i => { month := i + 1, totalCost := 0, events := 0 }

/-- One iteration of the `generateMonthlyAccumulation` loop: rows beyond
month 11 are skipped, otherwise the bucket's `totalCost` is overwritten
with the row's `cumulativeOOP` and its event count incremented. -/
def updateMonth (md : List MonthBucket) (row : ProgressionRow) : List MonthBucket :=
  let month := monthOf row.day
  if month < 12 then
    let b := md.getD month default
    md.set month { b with totalCost := row.cumulativeOOP, events := b.events + 1 }
  else md

def accumulateMonths (md : List MonthBucket) : List ProgressionRow → List MonthBucket
  | [] => md
  | r :: rs => accumulateMonths (updateMonth md r) rs

/-- Embeds `generateMonthlyAccumulation`. -/
def generateMonthlyAccumulation (progression : List ProgressionRow) : List MonthBucket :=
  accumulateMonths initMonthlyData progression

/-- Embeds `generatePlanResult` (the fields kept in `PlanResult`); an empty
progression short-circuits to `createErrorResult(plan, Error('No
progression data'))`. -/
def generatePlanResult (plan : Plan) (progression : List ProgressionRow)
    (_members : List Member) : PlanResult :=
  match progression.getLast? with
  | none => createErrorResult plan CalcError.noProgressionData
  | some finalRow =>
    { planId := plan.id
      error := none
      annualPremium := finalRow.monthlyPremium * 12
      familyTotals :=
        { medicalCosts :=
            ((progression.filter fun r => r.eventType = EventType.medical).map
              (·.eventCost)).sum
          rxCosts :=
            ((progression.filter fun r => r.eventType = EventType.medication).map
              (·.eventCost)).sum
          totalOutOfPocket := finalRow.cumulativeOOP
          totalWithPremiums := finalRow.cumulativeTotal }
      monthlyAccumulation := generateMonthlyAccumulation progression
      monthlyPremium := finalRow.monthlyPremium
      comparison := none }

/-- Stable insertion modelling
`planIds.sort((a, b) => totals[a] - totals[b])` (ascending, stable). -/
def insertByTotal (r : PlanResult) : List PlanResult → List PlanResult
  | [] => [r]
  | x :: xs =>
    if x.familyTotals.totalWithPremiums ≤ r.familyTotals.totalWithPremiums then
      x :: insertByTotal r xs
    else r :: x :: xs

def sortByTotal (l : List PlanResult) : List PlanResult :=
  l.foldl (fun acc r => insertByTotal r acc) []

/-- Embeds `addComparisonMetrics`.  The JS results object is keyed by plan id
(ids are unique object keys, iteration in insertion order); it is
modelled as a list of results carrying their `planId`.  Note this runs
over ALL entries of the map, error placeholders included, overwriting
the `comparison` block `createErrorResult` installed. -/
def addComparisonMetrics (results : List PlanResult) : List PlanResult :=
  match sortByTotal results with
  | [] => results
  | best :: rest =>
    let sorted := best :: rest
    let worst := sorted.getLast (by simp)
    results.map fun r =>
      { r with
        comparison := some
          { isBest := r.planId = best.planId
            isWorst := r.planId = worst.planId
            savingsVsBest :=
              some (r.familyTotals.totalWithPremiums - best.familyTotals.totalWithPremiums)
            rank := (sorted.findIdx fun x => x.planId = r.planId) + 1 } }

/-- The per-plan loop of `calculateAll` with its try/catch, followed by
`addComparisonMetrics`.  A throw inside one plan's
`applyPlanRules`/`generatePlanResult` is modelled by the oracle `crash`
returning the thrown error for that plan; the catch block substitutes
`createErrorResult`.  Inputs are taken post-validation. -/
def calculateAllLoop (crash : Plan → Option CalcError) (plans : List Plan)
    (members : List Member) (serviceCosts : ServiceCosts) : List PlanResult :=
  let usageTable := generateFamilyUsageTimeline members serviceCosts
  let results := plans.map fun plan =>
    match crash plan with
    | some err => createErrorResult plan err
    | none => generatePlanResult plan (applyPlanRules plan usageTable members) members
  addComparisonMetrics results

/-- Embeds `calculateAll` including its fatal entry guards: an empty plan
list throws `No plans provided for calculation` and an empty member list
throws `No family data provided for calculation` BEFORE any result map
is built; only past those guards does the per-plan loop run. -/
def calculateAllCore (crash : Plan → Option CalcError) (plans : List Plan)
    (members : List Member) (serviceCosts : ServiceCosts) :
    Except CalcError (List PlanResult) :=
  if plans.isEmpty then Except.error CalcError.noPlansProvided
  else if members.isEmpty then Except.error CalcError.noFamilyData
  else Except.ok (calculateAllLoop crash plans members serviceCosts)

/-- Embeds `calculateAll` on the path where no plan's rules throw. -/
def calculateAll (plans : List Plan) (members : List Member)
    (serviceCosts : ServiceCosts) : Except CalcError (List PlanResult) :=
  calculateAllCore (fun _ => none) plans members serviceCosts

/-- A raw numeric plan field as seen by `validateAndNormalizePlan`:
`absent` models `undefined`/`null`/`''`, `invalid` a value whose
`parseFloat` is `NaN` (fatal), `num v` a value parsing to `v`. -/
inductive RawNum
  | absent
  | invalid
  | num (v : ℚ)
deriving DecidableEq, Inhabited

/-- The numeric value the validator stores for a non-fatal raw field:
absent fields default to `0`; parsed values — negative ones included —
are stored unchanged (the JS only `console.warn`s on negatives). -/
def numValue : RawNum → ℚ
  | RawNum.absent => 0
  | RawNum.invalid => 0
  | RawNum.num v => v

/-- Raw plan input to `validateAndNormalizePlan`.  `hasName` models the
presence of the required `name` string; the `coinsurance` object form,
the drug-cost type strings and the `networkType` rxDeductible extraction
are not touched by any claim and are omitted. -/
structure RawPlan where
  id : Option ℕ := none
  hasName : Bool := false
  monthlyPremium : RawNum := RawNum.absent
  spousePremium : RawNum := RawNum.absent
  familyPremium : RawNum := RawNum.absent
  individualDeductible : RawNum := RawNum.absent
  familyDeductible : RawNum := RawNum.absent
  individualOOPMax : RawNum := RawNum.absent
  familyOOPMax : RawNum := RawNum.absent
  primaryCopay : RawNum := RawNum.absent
  specialistCopay : RawNum := RawNum.absent
  rxDeductible : RawNum := RawNum.absent
  tier1DrugCost : RawNum := RawNum.absent
  tier2DrugCost : RawNum := RawNum.absent
  tier3DrugCost : RawNum := RawNum.absent
  specialtyDrugCost : RawNum := RawNum.absent
deriving DecidableEq, Inhabited

/-- The `numericFields` array of `validateAndNormalizePlan`, paired with
the raw values, in source order; fields are identified by their index in
that array. -/
def RawPlan.rawNumerics (p : RawPlan) : List (ℕ × RawNum) :=
  [(0, p.monthlyPremium), (1, p.spousePremium), (2, p.familyPremium),
   (3, p.individualDeductible), (4, p.familyDeductible),
   (5, p.individualOOPMax), (6, p.familyOOPMax),
   (7, p.primaryCopay), (8, p.specialistCopay),
   (9, p.rxDeductible), (10, p.tier1DrugCost), (11, p.tier2DrugCost),
   (12, p.tier3DrugCost), (13, p.specialtyDrugCost)]

/-- First field whose value fails `parseFloat` (the JS loop throws at
it). -/
def firstInvalid (p : RawPlan) : Option ℕ :=
  p.rawNumerics.findSome? fun x =>
    match x.2 with
    | RawNum.invalid => some x.1
    | _ => none

/-- The indices of the fields for which the JS loop issues the negative-
value `console.warn` — note it warns and then stores the value anyway. -/
def planNegativeWarnings (p : RawPlan) : List ℕ :=
  p.rawNumerics.filterMap fun x =>
    match x.2 with
    | RawNum.num v => if v < 0 then some x.1 else none
    | _ => none

/-- The normalized plan built by the field loop of
`validateAndNormalizePlan` (fields not in `numericFields` keep their
defaults here). -/
def normalizePlanFields (p : RawPlan) : Plan :=
  { id := p.id.getD 0
    monthlyPremium := numValue p.monthlyPremium
    spousePremium := numValue p.spousePremium
    familyPremium := numValue p.familyPremium
    individualDeductible := numValue p.individualDeductible
    familyDeductible := numValue p.familyDeductible
    individualOOPMax := numValue p.individualOOPMax
    familyOOPMax := numValue p.familyOOPMax
    primaryCopay := numValue p.primaryCopay
    specialistCopay := numValue p.specialistCopay
    rxDeductible := numValue p.rxDeductible
    tier1DrugCost := numValue p.tier1DrugCost
    tier2DrugCost := numValue p.tier2DrugCost
    tier3DrugCost := numValue p.tier3DrugCost
    specialtyDrugCost := numValue p.specialtyDrugCost }

/-- Embeds `validateAndNormalizePlan`: fatal on missing id, missing name, or a
non-numeric value in a numeric field; otherwise the normalized plan. -/
def validateAndNormalizePlan (p : RawPlan) : Except CalcError Plan :=
  if p.id.isNone then Except.error CalcError.missingId
  else if ¬ p.hasName then Except.error CalcError.missingName
  else
    match firstInvalid p with
    | some f => Except.error (CalcError.invalidNumeric f)
    | none => Except.ok (normalizePlanFields p)

/-- Raw medication input to the medication branch of
`validateFamilyData`: `tier`/`quantity` are `parseInt` results (`none`
models `NaN`), `monthlyCost` a `parseFloat` result. -/
structure RawMedication where
  tier : Option ℤ := none
  monthlyCost : Option ℚ := none
  quantity : Option ℤ := none
deriving DecidableEq, Inhabited

/-- Medication-level warnings issued by `validateFamilyData`. -/
inductive MedWarning
  | invalidTier
  | negativeCost
deriving DecidableEq, Inhabited

/-- The medication branch of `validateFamilyData`:
`tier = parseInt(med.tier) || 1`, clamped to 1 (with a warning) when
outside `[1, 4]`; `monthlyCost = parseFloat(med.monthlyCost) || 0`,
clamped to 0 (with a warning) when negative;
`quantity = parseInt(med.quantity) || 1`.  Returns the validated
medication together with the warnings issued. -/
def validateMedication (raw : RawMedication) : Medication × List MedWarning :=
  let tier0 : ℤ := match raw.tier with
    | none => 1
    | some t => if t = 0 then 1 else t
  let cost0 : ℚ := raw.monthlyCost.getD 0
  let tierClamped := tier0 < 1 ∨ 4 < tier0
  let tier1 : ℤ := if tierClamped then 1 else tier0
  let costClamped := cost0 < 0
  let cost1 : ℚ := if costClamped then 0 else cost0
  let quantity : ℤ := match raw.quantity with
    | none => 1
    | some q => if q = 0 then 1 else q
  ({ tier := tier1, monthlyCost := cost1, quantity := quantity },
   (if tierClamped then [MedWarning.invalidTier] else []) ++
   (if costClamped then [MedWarning.negativeCost] else []))

/-- The claim's reading of the even-spacing formula, with the EXACT
(un-floored) interval `365 / N`: `⌊(365/N)·i + (365/N)/2⌋`.  Stated from
the spec's words, to be compared with `serviceOccurrenceDay`, which is
what `generateFamilyUsageTimeline` computes. -/
def specOccurrenceDay (count i : ℕ) : ℤ :=
  ⌊(365 / (count : ℚ)) * i + (365 / (count : ℚ)) / 2⌋

/- Concrete inputs used by counterexamples and witnesses. -/

def csZero : ServiceCosts := {}

def cs1 : ServiceCosts := { primaryVisit := 1000 }

def cs2 : ServiceCosts := { primaryVisit := 100 }

def csG : ServiceCosts := { specialistVisit := 100 }

/-- Individual OOP max 1000, family OOP max 1500, deductible high enough
that every dollar of the two 1000-dollar visits is member cost. -/
def plan1 : Plan :=
  { id := 1, individualDeductible := 2000, individualOOPMax := 1000, familyOOPMax := 1500 }

def mA : Member := { id := 1, primaryVisits := 1 }

def mB : Member := { id := 2, primaryVisits := 1 }

/-- Both OOP maxima left at their absent-field default 0 (JS-falsy). -/
def plan2 : Plan := { id := 2, individualDeductible := 100 }

def mC : Member := { id := 1, primaryVisits := 1 }

/-- The plan of the C3 scenario: separate Rx deductible of 200, tier-1
drug cost 10 tagged as a copay. -/
def planC3 : Plan :=
  { id := 3, rxDeductible := 200, tier1DrugCost := 10,
    tier1DrugCostType := some DrugCostType.copay }

/-- One member whose only usage is a 50-dollar-per-month tier-1 medication. -/
def mD : Member := { id := 1, medications := [{ tier := 1, monthlyCost := 50 }] }

def planC5 : Plan := { id := 5, monthlyPremium := 500 }

def plan6good : Plan := { id := 1, monthlyPremium := 100, individualDeductible := 1000 }

def plan6bad : Plan := { id := 2, monthlyPremium := 50 }

/-- Failure oracle for the C6 scenario: applying `plan6bad`'s rules
throws, every other plan computes normally. -/
def crash6 : Plan → Option CalcError :=
  fun p => if p.id = 2 then some CalcError.internalFault else none

/-- Premium-free plan, deductible above the single 100-dollar visit. -/
def planC7 : Plan := { id := 7, individualDeductible := 1000 }

def mG : Member := { id := 1, specialistVisits := 3 }

/-- A member with all-zero usage and no medications: passes the
`calculateAll` member-count guard yet generates an empty timeline. -/
def mZ : Member := { id := 1 }

def mH : Member := { id := 2, isActive := false, primaryVisits := 5 }

/-- Raw plan with a present id and name, a negative `monthlyPremium`, and
every other numeric field absent. -/
def rawPlan9 : RawPlan := { id := some 9, hasName := true, monthlyPremium := RawNum.num (-5) }

/-- Raw medication with tier 7 (outside `[1, 4]`). -/
def rawMed9 : RawMedication := { tier := some 7, monthlyCost := some 20 }

/-- The single progression row of `plan6good` on `[mC]`/`cs2`. -/
def row6 : ProgressionRow :=
  { day := 182, memberId := 1, eventType := EventType.medical
    serviceType := ServiceType.primaryVisit, tier := 1, grossCost := 100
    eventCost := 100, cumulativePremium := 600, cumulativeOOP := 100
    cumulativeTotal := 700, familyDeductibleUsed := 100
    familyRxDeductibleUsed := 0, familyOOPUsed := 100
    individualDeductibleUsed := 100, individualOOPUsed := 100
    planId := 1, monthlyPremium := 100, coverageType := CoverageType.individual }

/- Helper lemmas about the embedded engine. -/

theorem mem_of_getLast?_eq {α : Type} {l : List α} {a : α} (h : l.getLast? = some a) : a ∈ l := by
  rcases List.mem_getLast?_eq_getLast (show a ∈ l.getLast? by simp [h]) with ⟨hne, rfl⟩
  exact List.getLast_mem hne

theorem applyRows_length (plan : Plan) (mp : ℚ) (ct : CoverageType) (es : List UsageEvent) :
    ∀ s, (applyRows plan mp ct s es).length = es.length := by
  induction es with
  | nil => intro s; rfl
  | cons e es ih => intro s; simp only [applyRows, List.length_cons, ih]

theorem applyPlanRules_length (plan : Plan) (tl : List UsageEvent) (ms : List Member) :
    (applyPlanRules plan tl ms).length = tl.length := by
  simp only [applyPlanRules]
  exact applyRows_length plan _ _ tl initState

/-- Structural facts true of every row `applyStep` emits: the reported
cumulative OOP is the family accumulator clipped at the (possibly
infinite) family cap, the cumulative total is premium-to-date plus that
clipped figure, and the premium fields echo the loop constant. -/
theorem applyRows_row_fields (plan : Plan) (mp : ℚ) (ct : CoverageType) (es : List UsageEvent) :
    ∀ s, ∀ row ∈ applyRows plan mp ct s es,
      row.cumulativeOOP = minCap row.familyOOPUsed (famOOPCap plan) ∧
      row.cumulativeTotal = mp * (monthOf row.day + 1) + row.cumulativeOOP ∧
      row.monthlyPremium = mp := by
  induction es with
  | nil => intro s row h; simp [applyRows] at h
  | cons e es ih =>
    intro s row h
    rw [applyRows] at h
    rcases List.mem_cons.mp h with rfl | h2
    · exact ⟨rfl, rfl, rfl⟩
    · exact ih _ row h2

theorem applyPlanRules_row_fields (plan : Plan) (tl : List UsageEvent) (ms : List Member) :
    ∀ row ∈ applyPlanRules plan tl ms,
      row.cumulativeOOP = minCap row.familyOOPUsed (famOOPCap plan) ∧
      row.cumulativeTotal = row.monthlyPremium * (monthOf row.day + 1) + row.cumulativeOOP ∧
      row.monthlyPremium = (determinePremiumTier plan ms).monthlyPremium := by
  intro row h
  simp only [applyPlanRules] at h
  obtain ⟨h1, h2, h3⟩ := applyRows_row_fields plan _ _ tl initState row h
  exact ⟨h1, by rw [h3]; exact h2, h3⟩

/-- When the plan's individual OOP max is positive (hence JS-truthy), the
per-member OOP accumulator echoed in every row stays at or below it. -/
theorem applyRows_individualOOP_le (plan : Plan) (mp : ℚ) (ct : CoverageType)
    (hpos : 0 < plan.individualOOPMax) (es : List UsageEvent) :
    ∀ s, (∀ i, (s.memberStates i).oopUsed ≤ plan.individualOOPMax) →
      ∀ row ∈ applyRows plan mp ct s es, row.individualOOPUsed ≤ plan.individualOOPMax := by
  have hcap : jsOrInf plan.individualOOPMax = some plan.individualOOPMax := by
    simp [jsOrInf, hpos.ne']
  induction es with
  | nil => intro s _ row h; simp [applyRows] at h
  | cons e es ih =>
    intro s hs row h
    rw [applyRows] at h
    rcases List.mem_cons.mp h with rfl | h2
    · show minCap _ (jsOrInf plan.individualOOPMax) ≤ _
      rw [hcap]
      exact min_le_right _ _
    · refine ih _ ?_ row h2
      intro i
      show (if i = e.memberId then _ else s.memberStates i).oopUsed ≤ _
      by_cases hi : i = e.memberId
      · rw [if_pos hi]
        show minCap _ (jsOrInf plan.individualOOPMax) ≤ _
        rw [hcap]
        exact min_le_right _ _
      · rw [if_neg hi]
        exact hs i

theorem applyPlanRules_individualOOP_le (plan : Plan) (tl : List UsageEvent) (ms : List Member)
    (hpos : 0 < plan.individualOOPMax) :
    ∀ row ∈ applyPlanRules plan tl ms, row.individualOOPUsed ≤ plan.individualOOPMax := by
  simp only [applyPlanRules]
  exact applyRows_individualOOP_le plan _ _ hpos tl initState (fun _ => hpos.le)

theorem generatePlanResult_planId (plan : Plan) (prog : List ProgressionRow) (ms : List Member) :
    (generatePlanResult plan prog ms).planId = plan.id := by
  rw [generatePlanResult]
  cases prog.getLast? <;> rfl

/-- Every entry of a result map `calculateAll` returns is, up to the
`comparison` block `addComparisonMetrics` overwrites, the
`generatePlanResult` of one of the input plans; in particular the
`familyTotals` pass through untouched. -/
theorem calculateAll_mem_familyTotals (plans : List Plan) (ms : List Member) (cs : ServiceCosts)
    (rs : List PlanResult) (r : PlanResult)
    (hok : calculateAll plans ms cs = Except.ok rs) (hr : r ∈ rs) :
    ∃ p ∈ plans, r.planId = p.id ∧
      r.familyTotals =
        (generatePlanResult p
          (applyPlanRules p (generateFamilyUsageTimeline ms cs) ms) ms).familyTotals := by
  simp only [calculateAll, calculateAllCore] at hok
  split at hok
  · cases hok
  · split at hok
    · cases hok
    · rw [Except.ok.injEq] at hok
      subst hok
      simp only [calculateAllLoop, addComparisonMetrics] at hr
      split at hr
      · obtain ⟨p, hp, rfl⟩ := List.mem_map.mp hr
        exact ⟨p, hp, generatePlanResult_planId p _ ms, rfl⟩
      · obtain ⟨r0, hr0, rfl⟩ := List.mem_map.mp hr
        obtain ⟨p, hp, rfl⟩ := List.mem_map.mp hr0
        exact ⟨p, hp, generatePlanResult_planId p _ ms, rfl⟩

/-- With a positive (JS-truthy) `familyOOPMax`, the effective family cap
is exactly `plan.familyOOPMax`. -/
theorem famOOPCap_of_pos (plan : Plan) (h : 0 < plan.familyOOPMax) :
    famOOPCap plan = some plan.familyOOPMax := by
  simp [famOOPCap, jsOr, jsOrInf, h.ne']

theorem generatePlanResult_totalOOP_le (plan : Plan) (tl : List UsageEvent) (ms : List Member)
    (hfam : 0 < plan.familyOOPMax) :
    (generatePlanResult plan (applyPlanRules plan tl ms) ms).familyTotals.totalOutOfPocket
      ≤ plan.familyOOPMax := by
  rw [generatePlanResult]
  cases hlast : (applyPlanRules plan tl ms).getLast? with
  | none => simpa [createErrorResult] using hfam.le
  | some fin =>
    obtain ⟨h1, _, _⟩ := applyPlanRules_row_fields plan tl ms fin (mem_of_getLast?_eq hlast)
    show fin.cumulativeOOP ≤ plan.familyOOPMax
    rw [h1, famOOPCap_of_pos plan hfam]
    exact min_le_right _ _

/-- C1 (counterexample).  The claim states that the family OOP
accumulator (`ProgressionRow.familyOOPUsed`) is itself clipped at
`plan.familyOOPMax` and that marginal event costs are reduced to keep it
under that ceiling.  On `plan1` (individual max 1000, family max 1500)
with two members each incurring one 1000-dollar visit, the second row's
`familyOOPUsed` is 2000 > 1500, and that event's charged cost is the
full 1000, not reduced: only the reported `cumulativeOOP` is clipped. -/
theorem C1_counterexample :
    plan1.familyOOPMax = 1500 ∧
    ((applyPlanRules plan1 (generateFamilyUsageTimeline [mA, mB] cs1) [mA, mB]).getD 1
        default).familyOOPUsed = 2000 ∧
    ¬ ((applyPlanRules plan1 (generateFamilyUsageTimeline [mA, mB] cs1) [mA, mB]).getD 1
        default).familyOOPUsed ≤ plan1.familyOOPMax ∧
    ((applyPlanRules plan1 (generateFamilyUsageTimeline [mA, mB] cs1) [mA, mB]).getD 1
        default).eventCost = 1000 ∧
    ((applyPlanRules plan1 (generateFamilyUsageTimeline [mA, mB] cs1) [mA, mB]).getD 1
        default).cumulativeOOP = 1500 := by
  norm_num [applyPlanRules, applyRows, applyStep, initState, determinePremiumTier,
    processEventUnderPlan, processMedicalEventUnderPlan, processMedicationEventUnderPlan,
    calculatePostDeductibleCost, getCopayForService, calculateTierCost, tierCostEntry,
    effFamilyDeductible, famOOPCap, jsOr, jsOrInf, minCap, monthOf,
    generateFamilyUsageTimeline, memberEvents, serviceEvents, serviceOccurrenceDay,
    medicationEvents, sortByDay, insertByDay, plan1, mA, mB, cs1, List.range_succ,
    min_def, max_def]

/-- C1 (amended).  In `applyPlanRules` the individually-capped event cost
is added to the family OOP accumulator WITHOUT clipping; the family OOP
max is applied only to the reported `cumulativeOOP`, which equals the
accumulator clipped at the cap (`min`), and hence never exceeds a finite
cap — while `familyOOPUsed` and the per-event charged cost are not
reduced by the family cap. -/
theorem C1_family_cap_clips_reported_only (plan : Plan) (usageTable : List UsageEvent)
    (members : List Member) (row : ProgressionRow)
    (h : row ∈ applyPlanRules plan usageTable members) :
    row.cumulativeOOP = minCap row.familyOOPUsed (famOOPCap plan) ∧
    ∀ c, famOOPCap plan = some c → row.cumulativeOOP ≤ c := by
  obtain ⟨h1, _, _⟩ := applyPlanRules_row_fields plan usageTable members row h
  refine ⟨h1, fun c hc => ?_⟩
  rw [h1, hc]
  exact min_le_right _ _

theorem C1_family_cap_clips_reported_only_witness :
    ∃ row ∈ applyPlanRules plan1 (generateFamilyUsageTimeline [mA, mB] cs1) [mA, mB],
      row.cumulativeOOP = minCap row.familyOOPUsed (famOOPCap plan1) ∧
      ∀ c, famOOPCap plan1 = some c → row.cumulativeOOP ≤ c := by
  have hne : applyPlanRules plan1 (generateFamilyUsageTimeline [mA, mB] cs1) [mA, mB] ≠ [] := by
    norm_num [applyPlanRules, applyRows, applyStep, initState, determinePremiumTier,
      processEventUnderPlan, processMedicalEventUnderPlan, processMedicationEventUnderPlan,
      calculatePostDeductibleCost, getCopayForService, calculateTierCost, tierCostEntry,
      effFamilyDeductible, famOOPCap, jsOr, jsOrInf, minCap, monthOf,
      generateFamilyUsageTimeline, memberEvents, serviceEvents, serviceOccurrenceDay,
      medicationEvents, sortByDay, insertByDay, plan1, mA, mB, cs1, List.range_succ,
      min_def, max_def]
    exact List.cons_ne_nil _ _
  exact ⟨_, List.head_mem hne,
    C1_family_cap_clips_reported_only plan1 _ [mA, mB] _ (List.head_mem hne)⟩

/-- C2 (counterexample).  `plan2` leaves both OOP maxima at the
absent-field default 0, which is finite; a single 100-dollar visit paid
entirely toward the deductible gives `totalOutOfPocket = 100 > 0 =
plan.familyOOPMax` and a row with `individualOOPUsed = 100 > 0 =
plan.individualOOPMax`: the claimed invariant fails for zero (JS-falsy)
maxima, which the engine treats as "no cap". -/
theorem C2_counterexample :
    plan2.familyOOPMax = 0 ∧ plan2.individualOOPMax = 0 ∧
    (calculateAll [plan2] [mC] cs2).map
        (List.map fun r => r.familyTotals.totalOutOfPocket) = Except.ok [100] ∧
    ¬ (100 : ℚ) ≤ plan2.familyOOPMax ∧
    ((applyPlanRules plan2 (generateFamilyUsageTimeline [mC] cs2) [mC]).getD 0
        default).individualOOPUsed = 100 ∧
    ¬ ((applyPlanRules plan2 (generateFamilyUsageTimeline [mC] cs2) [mC]).getD 0
        default).individualOOPUsed ≤ plan2.individualOOPMax := by
  norm_num [calculateAll, calculateAllCore, calculateAllLoop, Except.map,
    addComparisonMetrics, sortByTotal, insertByTotal,
    generatePlanResult, generateMonthlyAccumulation, accumulateMonths, updateMonth,
    initMonthlyData, createErrorResult, List.findIdx, List.findIdx.go,
    applyPlanRules, applyRows, applyStep, initState, determinePremiumTier,
    processEventUnderPlan, processMedicalEventUnderPlan, processMedicationEventUnderPlan,
    calculatePostDeductibleCost, getCopayForService, calculateTierCost, tierCostEntry,
    effFamilyDeductible, famOOPCap, jsOr, jsOrInf, minCap, monthOf,
    generateFamilyUsageTimeline, memberEvents, serviceEvents, serviceOccurrenceDay,
    medicationEvents, sortByDay, insertByDay, plan2, mC, cs2, List.range_succ,
    min_def, max_def]

/-- C2 (amended).  For plans whose OOP maxima are positive (a zero value
is JS-falsy and means "no cap"), the claimed invariants hold: every
entry of any result map `calculateAll` returns has
`totalOutOfPocket ≤ familyOOPMax` of its plan, and every progression row
keeps `individualOOPUsed ≤ individualOOPMax`. -/
theorem C2_oop_caps_with_positive_maxima (plans : List Plan) (members : List Member)
    (cs : ServiceCosts)
    (hfam : ∀ p ∈ plans, 0 < p.familyOOPMax) (hind : ∀ p ∈ plans, 0 < p.individualOOPMax) :
    (∀ rs, calculateAll plans members cs = Except.ok rs → ∀ r ∈ rs, ∃ p ∈ plans,
        r.planId = p.id ∧ r.familyTotals.totalOutOfPocket ≤ p.familyOOPMax) ∧
    (∀ p ∈ plans, ∀ row ∈ applyPlanRules p (generateFamilyUsageTimeline members cs) members,
        row.individualOOPUsed ≤ p.individualOOPMax) := by
  constructor
  · intro rs hok r hr
    obtain ⟨p, hp, hid, htot⟩ := calculateAll_mem_familyTotals plans members cs rs r hok hr
    refine ⟨p, hp, hid, ?_⟩
    rw [htot]
    exact generatePlanResult_totalOOP_le p _ members (hfam p hp)
  · intro p hp
    exact applyPlanRules_individualOOP_le p _ members (hind p hp)

theorem C2_oop_caps_with_positive_maxima_witness :
    (∀ p ∈ [plan1], 0 < p.familyOOPMax) ∧ (∀ p ∈ [plan1], 0 < p.individualOOPMax) ∧
    ((∀ rs, calculateAll [plan1] [mC] cs2 = Except.ok rs → ∀ r ∈ rs, ∃ p ∈ [plan1],
        r.planId = p.id ∧ r.familyTotals.totalOutOfPocket ≤ p.familyOOPMax) ∧
      (∀ p ∈ [plan1],
        ∀ row ∈ applyPlanRules p (generateFamilyUsageTimeline [mC] cs2) [mC],
          row.individualOOPUsed ≤ p.individualOOPMax)) := by
  have h1 : ∀ p ∈ [plan1], 0 < p.familyOOPMax := by
    intro p hp
    rw [List.mem_singleton] at hp
    subst hp
    norm_num [plan1]
  have h2 : ∀ p ∈ [plan1], 0 < p.individualOOPMax := by
    intro p hp
    rw [List.mem_singleton] at hp
    subst hp
    norm_num [plan1]
  exact ⟨h1, h2, C2_oop_caps_with_positive_maxima [plan1] [mC] cs2 h1 h2⟩

/-- C3 (counterexample).  Under the claimed scenario (rxDeductible 200,
50-dollar monthly tier-1 medication, 10-dollar tier-1 copay) the claim
says the THIRD monthly event (index 2) already costs the 10-dollar copay;
the engine charges 50, because only 100 of the 200-dollar Rx deductible
has been used after two months. -/
theorem C3_counterexample :
    ((applyPlanRules planC3 (generateFamilyUsageTimeline [mD] csZero) [mD]).getD 2
        default).eventCost = 50 ∧ (50 : ℚ) ≠ 10 := by
  norm_num [applyPlanRules, applyRows, applyStep, initState, determinePremiumTier,
    processEventUnderPlan, processMedicalEventUnderPlan, processMedicationEventUnderPlan,
    calculatePostDeductibleCost, getCopayForService, calculateTierCost, tierCostEntry,
    effFamilyDeductible, famOOPCap, jsOr, jsOrInf, minCap, monthOf,
    generateFamilyUsageTimeline, memberEvents, serviceEvents, serviceOccurrenceDay,
    medicationEvents, sortByDay, insertByDay, planC3, mD, csZero, List.range_succ,
    min_def, max_def]

/-- C3 (amended).  In the scenario the engine charges 50 dollars for each
of the FIRST FOUR monthly medication events (using up the full 200-dollar
Rx deductible at 50 dollars a month), and the 10-dollar copay from the
fifth month onward; the family and individual medical deductible
accumulators stay 0 in every progression row throughout. -/
theorem C3_rx_deductible_schedule :
    (applyPlanRules planC3 (generateFamilyUsageTimeline [mD] csZero) [mD]).map
      (fun r => (r.eventCost, r.familyDeductibleUsed, r.individualDeductibleUsed)) =
    [(50, 0, 0), (50, 0, 0), (50, 0, 0), (50, 0, 0), (10, 0, 0), (10, 0, 0),
     (10, 0, 0), (10, 0, 0), (10, 0, 0), (10, 0, 0), (10, 0, 0), (10, 0, 0)] := by
  norm_num [applyPlanRules, applyRows, applyStep, initState, determinePremiumTier,
    processEventUnderPlan, processMedicalEventUnderPlan, processMedicationEventUnderPlan,
    calculatePostDeductibleCost, getCopayForService, calculateTierCost, tierCostEntry,
    effFamilyDeductible, famOOPCap, jsOr, jsOrInf, minCap, monthOf,
    generateFamilyUsageTimeline, memberEvents, serviceEvents, serviceOccurrenceDay,
    medicationEvents, sortByDay, insertByDay, planC3, mD, csZero, List.range_succ,
    min_def, max_def]

/-- C4 (confirmed).  The member list entering a calculation is
`FamilyManager.getFamilyData()`'s `activeMembers` filter; a member whose
`isActive` flag is false can be inserted anywhere into the family without
changing the generated usage timeline or the premium-tier selection:
inactive members contribute no events and are not counted. -/
theorem C4_inactive_members_do_not_participate (plan : Plan) (cs : ServiceCosts)
    (ms1 ms2 : List Member) (m : Member) (h : m.isActive = false) :
    generateFamilyUsageTimeline (activeMembers (ms1 ++ m :: ms2)) cs =
      generateFamilyUsageTimeline (activeMembers (ms1 ++ ms2)) cs ∧
    determinePremiumTier plan (activeMembers (ms1 ++ m :: ms2)) =
      determinePremiumTier plan (activeMembers (ms1 ++ ms2)) := by
  have key : activeMembers (ms1 ++ m :: ms2) = activeMembers (ms1 ++ ms2) := by
    simp [activeMembers, List.filter_append, List.filter_cons, h]
  rw [key]
  exact ⟨rfl, rfl⟩

theorem C4_inactive_members_do_not_participate_witness :
    mH.isActive = false ∧
    (generateFamilyUsageTimeline (activeMembers ([] ++ mH :: [mC])) csZero =
        generateFamilyUsageTimeline (activeMembers ([] ++ [mC])) csZero ∧
      determinePremiumTier plan2 (activeMembers ([] ++ mH :: [mC])) =
        determinePremiumTier plan2 (activeMembers ([] ++ [mC]))) :=
  ⟨rfl, C4_inactive_members_do_not_participate plan2 csZero [] [mC] mH rfl⟩

/-- C5 (counterexample).  A single member with all-zero usage passes the
`calculateAll` entry guards yet generates an empty usage timeline; the
result `calculateAll` returns for `planC5` (monthly premium 500) is an
ERROR placeholder: `error` is set and `totalWithPremiums` is 0 rather
than the 6000-dollar annual premium — not the claimed valid premium-only
result. -/
theorem C5_counterexample :
    generateFamilyUsageTimeline [mZ] csZero = [] ∧
    (calculateAll [planC5] [mZ] csZero).map
        (List.map fun r => (r.error, r.familyTotals.medicalCosts, r.familyTotals.rxCosts,
          r.familyTotals.totalWithPremiums, r.annualPremium)) =
      Except.ok [(some CalcError.noProgressionData, 0, 0, 0, 6000)] ∧
    ¬ ((0 : ℚ) = 6000) := by
  norm_num [calculateAll, calculateAllCore, calculateAllLoop, Except.map,
    addComparisonMetrics, sortByTotal, insertByTotal,
    generatePlanResult, generateMonthlyAccumulation, accumulateMonths, updateMonth,
    initMonthlyData, createErrorResult, List.findIdx, List.findIdx.go,
    applyPlanRules, applyRows, applyStep, initState, determinePremiumTier,
    generateFamilyUsageTimeline, memberEvents, serviceEvents, serviceOccurrenceDay,
    medicationEvents, sortByDay, insertByDay, planC5, mZ, csZero]

/-- C5 (amended).  When the usage timeline is empty, `generatePlanResult`
does NOT return a valid premium-only result: the empty progression
short-circuits to the error placeholder (`No progression data`) whose
totals — `totalWithPremiums` included — are all zero, while
`annualPremium` is still `monthlyPremium * 12`. -/
theorem C5_empty_timeline_gives_error_result (plan : Plan) (members : List Member)
    (cs : ServiceCosts) (h : generateFamilyUsageTimeline members cs = []) :
    generatePlanResult plan
        (applyPlanRules plan (generateFamilyUsageTimeline members cs) members) members =
      createErrorResult plan CalcError.noProgressionData := by
  rw [h]
  rfl

theorem C5_empty_timeline_gives_error_result_witness :
    generateFamilyUsageTimeline [mZ] csZero = [] ∧
    generatePlanResult planC5
        (applyPlanRules planC5 (generateFamilyUsageTimeline [mZ] csZero) [mZ]) [mZ] =
      createErrorResult planC5 CalcError.noProgressionData :=
  ⟨rfl, C5_empty_timeline_gives_error_result planC5 [mZ] csZero rfl⟩

/-- C6 (code_bug).  The failure IS isolated and the placeholder's totals
ARE zeroed — but `calculateAll` then runs `addComparisonMetrics` over the
whole result map, error placeholders included, overwriting the
`rank = 999`/`isWorst` block `createErrorResult` installed: with its
zero `totalWithPremiums` the failed plan sorts FIRST and ends up
`rank = 1`/`isBest` in the returned map, while the healthy plan computes
normally (total 700) and is marked worst.  The second conjunct shows the
overwritten block `createErrorResult` had produced. -/
theorem C6_failed_plan_isolated_but_ranked_best :
    (calculateAllCore crash6 [plan6good, plan6bad] [mC] cs2).map
        (List.map fun r => (r.planId, r.error, r.familyTotals.totalWithPremiums, r.comparison)) =
      Except.ok
        [(1, none, 700,
            some { isBest := false, isWorst := true, savingsVsBest := some 700, rank := 2 }),
         (2, some CalcError.internalFault, 0,
            some { isBest := true, isWorst := false, savingsVsBest := some 0, rank := 1 })] ∧
    (createErrorResult plan6bad CalcError.internalFault).comparison =
      some { isBest := false, isWorst := true, savingsVsBest := none, rank := 999 } := by
  constructor
  · norm_num [calculateAllCore, calculateAllLoop, Except.map, crash6,
      addComparisonMetrics, sortByTotal, insertByTotal,
      generatePlanResult, generateMonthlyAccumulation, accumulateMonths, updateMonth,
      initMonthlyData, createErrorResult, List.findIdx, List.findIdx.go,
      applyPlanRules, applyRows, applyStep, initState, determinePremiumTier,
      processEventUnderPlan, processMedicalEventUnderPlan, processMedicationEventUnderPlan,
      calculatePostDeductibleCost, getCopayForService, calculateTierCost, tierCostEntry,
      effFamilyDeductible, famOOPCap, jsOr, jsOrInf, minCap, monthOf,
      generateFamilyUsageTimeline, memberEvents, serviceEvents, serviceOccurrenceDay,
      medicationEvents, sortByDay, insertByDay, plan6good, plan6bad, mC, cs2,
      List.range_succ, min_def, max_def]
  · rfl

theorem accumulateMonths_len (rows : List ProgressionRow) :
    ∀ md, (accumulateMonths md rows).length = md.length := by
  induction rows with
  | nil => intro md; rfl
  | cons r rs ih =>
    intro md
    rw [accumulateMonths, ih, updateMonth]
    dsimp only
    split <;> simp

/-- What the bucket loop computes: bucket `i` ends at the `cumulativeOOP`
of the LAST progression row landing in month `i`, and keeps its incoming
value when no row lands there. -/
theorem accumulateMonths_getD (i : ℕ) (hi : i < 12) (rows : List ProgressionRow) :
    ∀ md : List MonthBucket, md.length = 12 →
      ((accumulateMonths md rows).getD i default).totalCost =
        (((rows.filter fun r => monthOf r.day = i).getLast?).map
          (fun r => r.cumulativeOOP)).getD ((md.getD i default).totalCost) := by
  induction rows with
  | nil =>
    intro md hmd
    simp [accumulateMonths]
  | cons r rs ih =>
    intro md hmd
    have hlen : (updateMonth md r).length = 12 := by
      rw [updateMonth]; dsimp only; split <;> simp [hmd]
    rw [accumulateMonths, List.filter_cons]
    by_cases hm : monthOf r.day = i
    · have hval : ((updateMonth md r).getD i default).totalCost = r.cumulativeOOP := by
        rw [updateMonth]
        dsimp only
        rw [if_pos (show monthOf r.day < 12 from hm ▸ hi), hm]
        simp [List.getD, List.getElem?_set, hmd ▸ hi]
      have hcond : decide (monthOf r.day = i) = true := by simp [hm]
      rw [ih _ hlen, hval, if_pos hcond]
      cases hfl : (rs.filter fun x => monthOf x.day = i) with
      | nil => simp
      | cons b bs =>
        rw [List.getLast?_cons_cons,
          List.getLast?_eq_getLast_of_ne_nil (List.cons_ne_nil b bs)]
        simp
    · have hval : ((updateMonth md r).getD i default).totalCost =
          (md.getD i default).totalCost := by
        rw [updateMonth]
        dsimp only
        split
        · simp [List.getD, List.getElem?_set, hm]
        · rfl
      rw [ih _ hlen, hval]
      simp [hm]

/-- C7 (counterexample).  `planC7` with one 100-dollar visit on day 182
(month index 5): bucket 5 holds 100 but bucket 6 holds 0 — a month with
no events does NOT carry the previous month's value forward, and the
series decreases, so it is not monotonically non-decreasing. -/
theorem C7_counterexample :
    (((generatePlanResult planC7
        (applyPlanRules planC7 (generateFamilyUsageTimeline [mC] cs2) [mC])
        [mC]).monthlyAccumulation.getD 5 default).totalCost = 100) ∧
    (((generatePlanResult planC7
        (applyPlanRules planC7 (generateFamilyUsageTimeline [mC] cs2) [mC])
        [mC]).monthlyAccumulation.getD 6 default).totalCost = 0) ∧
    ¬ ((generatePlanResult planC7
        (applyPlanRules planC7 (generateFamilyUsageTimeline [mC] cs2) [mC])
        [mC]).monthlyAccumulation.getD 5 default).totalCost ≤
      ((generatePlanResult planC7
        (applyPlanRules planC7 (generateFamilyUsageTimeline [mC] cs2) [mC])
        [mC]).monthlyAccumulation.getD 6 default).totalCost := by
  norm_num [generatePlanResult, generateMonthlyAccumulation, accumulateMonths, updateMonth,
    initMonthlyData, createErrorResult,
    applyPlanRules, applyRows, applyStep, initState, determinePremiumTier,
    processEventUnderPlan, processMedicalEventUnderPlan, processMedicationEventUnderPlan,
    calculatePostDeductibleCost, getCopayForService, calculateTierCost, tierCostEntry,
    effFamilyDeductible, famOOPCap, jsOr, jsOrInf, minCap, monthOf,
    generateFamilyUsageTimeline, memberEvents, serviceEvents, serviceOccurrenceDay,
    medicationEvents, sortByDay, insertByDay, planC7, mC, cs2, List.range_succ,
    min_def, max_def]

/-- C7 (amended).  The monthly series has 12 buckets and bucket `i` holds
the `cumulativeOOP` of the latest event in month `i` — but a month with
no events keeps the initial value 0 (no carry-forward), and no
monotonicity clamp is applied, so the series may drop back to 0 after a
month that had events. -/
theorem C7_monthly_buckets (progression : List ProgressionRow) (i : ℕ) (hi : i < 12) :
    (generateMonthlyAccumulation progression).length = 12 ∧
    ((generateMonthlyAccumulation progression).getD i default).totalCost =
      (((progression.filter fun r => monthOf r.day = i).getLast?).map
        (fun r => r.cumulativeOOP)).getD 0 := by
  constructor
  · rw [generateMonthlyAccumulation, accumulateMonths_len]
    rfl
  · have h := accumulateMonths_getD i hi progression initMonthlyData (by rfl)
    rw [generateMonthlyAccumulation, h]
    congr 1
    simp [initMonthlyData, List.getD, List.getElem?_map, List.getElem?_range, hi]

theorem C7_monthly_buckets_witness :
    (5 : ℕ) < 12 ∧
    ((generateMonthlyAccumulation
        (applyPlanRules planC7 (generateFamilyUsageTimeline [mC] cs2) [mC])).length = 12 ∧
      ((generateMonthlyAccumulation
          (applyPlanRules planC7 (generateFamilyUsageTimeline [mC] cs2) [mC])).getD 5
          default).totalCost =
        ((((applyPlanRules planC7 (generateFamilyUsageTimeline [mC] cs2) [mC]).filter
            fun r => monthOf r.day = 5).getLast?).map (fun r => r.cumulativeOOP)).getD 0) :=
  ⟨by norm_num,
    C7_monthly_buckets (applyPlanRules planC7 (generateFamilyUsageTimeline [mC] cs2) [mC]) 5
      (by norm_num)⟩

/-- C8 (counterexample).  For an annual count of 3, the claim's exact
formula `⌊(365/N)·i + (365/N)/2⌋` gives day 182 for occurrence `i = 1`,
but the engine floors the interval first (`⌊365/3⌋ = 121`) and places the
event on day 181. -/
theorem C8_counterexample :
    ((generateFamilyUsageTimeline [mG] csG).getD 1 default).day = 181 ∧
    specOccurrenceDay 3 1 = 182 ∧
    ¬ (((generateFamilyUsageTimeline [mG] csG).getD 1 default).day : ℤ) =
        specOccurrenceDay 3 1 := by
  have h1 : ((generateFamilyUsageTimeline [mG] csG).getD 1 default).day = 181 := by
    norm_num [generateFamilyUsageTimeline, memberEvents, serviceEvents, serviceOccurrenceDay,
      medicationEvents, sortByDay, insertByDay, mG, csG, List.range_succ]
  have h2 : specOccurrenceDay 3 1 = 182 := by
    norm_num [specOccurrenceDay, Int.floor_eq_iff]
  refine ⟨h1, h2, ?_⟩
  rw [h1, h2]
  decide

/-- C8 (amended).  Occurrence `i` (0-indexed, `i < N`) of a service with
annual count `N` is generated on day `⌊365/N⌋ · i + ⌊⌊365/N⌋ / 2⌋`: the
interval is floored to whole days BEFORE being multiplied and halved,
not kept exact as the claim states. -/
theorem C8_occurrence_day (m : Member) (st : ServiceType) (cost : ℚ) (count i : ℕ)
    (h : i < count) :
    ((serviceEvents m st count cost).getD i default).day = 365 / count * i + 365 / count / 2 ∧
    ((serviceEvents m st count cost).getD i default).memberId = m.id := by
  have hpos : 0 < count := Nat.lt_of_le_of_lt (Nat.zero_le i) h
  rw [serviceEvents, if_pos hpos]
  constructor <;>
    simp [List.getD, List.getElem?_map, List.getElem?_range, h, serviceOccurrenceDay]

theorem C8_occurrence_day_witness :
    (1 : ℕ) < 3 ∧
    (((serviceEvents mG ServiceType.specialistVisit 3 100).getD 1 default).day =
        365 / 3 * 1 + 365 / 3 / 2 ∧
      ((serviceEvents mG ServiceType.specialistVisit 3 100).getD 1 default).memberId = mG.id) :=
  ⟨by norm_num, C8_occurrence_day mG ServiceType.specialistVisit 100 3 1 (by norm_num)⟩

/-- C9 (counterexample).  `rawPlan9` carries `monthlyPremium = -5`; the
validator accepts it, warns (field index 0 is in the warning list), but
stores the NEGATIVE value unchanged — the normalized plan does carry a
negative numeric field, contradicting the claimed clamp to 0. -/
theorem C9_counterexample :
    validateAndNormalizePlan rawPlan9 = Except.ok (normalizePlanFields rawPlan9) ∧
    (normalizePlanFields rawPlan9).monthlyPremium = -5 ∧
    ¬ (0 ≤ (normalizePlanFields rawPlan9).monthlyPremium) ∧
    0 ∈ planNegativeWarnings rawPlan9 := by
  refine ⟨rfl, rfl, by norm_num [normalizePlanFields, numValue, rawPlan9], ?_⟩
  norm_num [planNegativeWarnings, RawPlan.rawNumerics, rawPlan9]

/-- C9 (amended).  In the validator: a plan with id, name and no
unparsable numeric field is accepted (none of the listed conditions is
fatal); absent numeric fields normalize to 0 while present values —
negative ones included — are stored UNCHANGED, a negative value merely
adding the field to the warning list; a medication tier whose
`parseInt || 1` value falls outside `[1, 4]` is clamped to 1 with a
warning, and the validated medication always has tier in `[1, 4]` and a
non-negative monthly cost. -/
theorem C9_validator_behaviour (p : RawPlan) (raw : RawMedication)
    (hid : p.id.isSome) (hname : p.hasName = true) (hval : firstInvalid p = none) :
    validateAndNormalizePlan p = Except.ok (normalizePlanFields p) ∧
    (numValue RawNum.absent = 0 ∧ ∀ v : ℚ, numValue (RawNum.num v) = v) ∧
    ((normalizePlanFields p).monthlyPremium = numValue p.monthlyPremium ∧
      (normalizePlanFields p).familyOOPMax = numValue p.familyOOPMax) ∧
    (∀ x ∈ p.rawNumerics, ∀ v : ℚ, x.2 = RawNum.num v → v < 0 →
      x.1 ∈ planNegativeWarnings p) ∧
    (1 ≤ (validateMedication raw).1.tier ∧ (validateMedication raw).1.tier ≤ 4 ∧
      0 ≤ (validateMedication raw).1.monthlyCost) ∧
    (∀ t : ℤ, raw.tier = some t → t ≠ 0 → t < 1 ∨ 4 < t →
      (validateMedication raw).1.tier = 1 ∧
        MedWarning.invalidTier ∈ (validateMedication raw).2) := by
  obtain ⟨a, ha⟩ := Option.isSome_iff_exists.mp hid
  refine ⟨?_, ⟨rfl, fun v => rfl⟩, ⟨rfl, rfl⟩, ?_, ?_, ?_⟩
  · rw [validateAndNormalizePlan, ha]
    simp [hname, hval]
  · intro x hx v hv hneg
    exact List.mem_filterMap.mpr ⟨x, hx, by rw [hv]; simp [hneg]⟩
  · refine ⟨?_, ?_, ?_⟩ <;> dsimp only [validateMedication]
    · split
      · omega
      · rename_i hcl
        push_neg at hcl
        exact hcl.1
    · split
      · omega
      · rename_i hcl
        push_neg at hcl
        exact hcl.2
    · split
      · exact le_refl 0
      · rename_i hcl
        exact not_lt.mp hcl
  · intro t ht hne hout
    constructor
    · simp only [validateMedication, ht]
      rw [if_neg hne, if_pos hout]
    · simp only [validateMedication, ht]
      rw [if_neg hne, if_pos hout]
      simp

theorem C9_validator_behaviour_witness :
    rawPlan9.id.isSome = true ∧ rawPlan9.hasName = true ∧ firstInvalid rawPlan9 = none ∧
    (validateAndNormalizePlan rawPlan9 = Except.ok (normalizePlanFields rawPlan9) ∧
      (numValue RawNum.absent = 0 ∧ ∀ v : ℚ, numValue (RawNum.num v) = v) ∧
      ((normalizePlanFields rawPlan9).monthlyPremium = numValue rawPlan9.monthlyPremium ∧
        (normalizePlanFields rawPlan9).familyOOPMax = numValue rawPlan9.familyOOPMax) ∧
      (∀ x ∈ rawPlan9.rawNumerics, ∀ v : ℚ, x.2 = RawNum.num v → v < 0 →
        x.1 ∈ planNegativeWarnings rawPlan9) ∧
      (1 ≤ (validateMedication rawMed9).1.tier ∧ (validateMedication rawMed9).1.tier ≤ 4 ∧
        0 ≤ (validateMedication rawMed9).1.monthlyCost) ∧
      (∀ t : ℤ, rawMed9.tier = some t → t ≠ 0 → t < 1 ∨ 4 < t →
        (validateMedication rawMed9).1.tier = 1 ∧
          MedWarning.invalidTier ∈ (validateMedication rawMed9).2)) :=
  ⟨rfl, rfl, rfl, C9_validator_behaviour rawPlan9 rawMed9 rfl rfl rfl⟩

/-- C10 (counterexample).  `planC7` has monthly premium 0; its single
usage event is on day 182 (billing month 6, before the twelfth), and
`totalWithPremiums = 100 = annualPremium + totalOutOfPocket`: the claimed
STRICT inequality fails for a zero premium. -/
theorem C10_counterexample :
    (applyPlanRules planC7 (generateFamilyUsageTimeline [mC] cs2) [mC]).map
        (fun r => r.day) = [182] ∧
    monthOf 182 + 1 = 6 ∧
    (generatePlanResult planC7
        (applyPlanRules planC7 (generateFamilyUsageTimeline [mC] cs2) [mC])
        [mC]).annualPremium = 0 ∧
    (generatePlanResult planC7
        (applyPlanRules planC7 (generateFamilyUsageTimeline [mC] cs2) [mC])
        [mC]).familyTotals.totalOutOfPocket = 100 ∧
    (generatePlanResult planC7
        (applyPlanRules planC7 (generateFamilyUsageTimeline [mC] cs2) [mC])
        [mC]).familyTotals.totalWithPremiums = 100 ∧
    ¬ (generatePlanResult planC7
        (applyPlanRules planC7 (generateFamilyUsageTimeline [mC] cs2) [mC])
        [mC]).familyTotals.totalWithPremiums <
      (generatePlanResult planC7
          (applyPlanRules planC7 (generateFamilyUsageTimeline [mC] cs2) [mC])
          [mC]).annualPremium +
        (generatePlanResult planC7
          (applyPlanRules planC7 (generateFamilyUsageTimeline [mC] cs2) [mC])
          [mC]).familyTotals.totalOutOfPocket := by
  norm_num [generatePlanResult, generateMonthlyAccumulation, accumulateMonths, updateMonth,
    initMonthlyData, createErrorResult,
    applyPlanRules, applyRows, applyStep, initState, determinePremiumTier,
    processEventUnderPlan, processMedicalEventUnderPlan, processMedicationEventUnderPlan,
    calculatePostDeductibleCost, getCopayForService, calculateTierCost, tierCostEntry,
    effFamilyDeductible, famOOPCap, jsOr, jsOrInf, minCap, monthOf,
    generateFamilyUsageTimeline, memberEvents, serviceEvents, serviceOccurrenceDay,
    medicationEvents, sortByDay, insertByDay, planC7, mC, cs2, List.range_succ,
    min_def, max_def]

/-- C10 (amended).  For a non-empty progression with final row `fin`:
`annualPremium = monthlyPremium * 12`, while `totalWithPremiums =
monthlyPremium * (⌊finalDay/30.4⌋ + 1) + totalOutOfPocket`; hence
WHENEVER the monthly premium is positive and the last event falls before
the twelfth billing month, `totalWithPremiums` is strictly below
`annualPremium + totalOutOfPocket` — for a zero premium the two sides
are equal instead. -/
theorem C10_headline_totals_use_different_premiums (plan : Plan) (members : List Member)
    (cs : ServiceCosts) (fin : ProgressionRow) (prog : List ProgressionRow)
    (hprog : prog = applyPlanRules plan (generateFamilyUsageTimeline members cs) members)
    (hlast : prog.getLast? = some fin) :
    (generatePlanResult plan prog members).annualPremium =
      (generatePlanResult plan prog members).monthlyPremium * 12 ∧
    (generatePlanResult plan prog members).familyTotals.totalWithPremiums =
      (generatePlanResult plan prog members).monthlyPremium * (monthOf fin.day + 1) +
        (generatePlanResult plan prog members).familyTotals.totalOutOfPocket ∧
    (0 < (generatePlanResult plan prog members).monthlyPremium → monthOf fin.day + 1 < 12 →
      (generatePlanResult plan prog members).familyTotals.totalWithPremiums <
        (generatePlanResult plan prog members).annualPremium +
          (generatePlanResult plan prog members).familyTotals.totalOutOfPocket) := by
  obtain ⟨-, h2, -⟩ := applyPlanRules_row_fields plan _ members fin
    (hprog ▸ mem_of_getLast?_eq hlast)
  refine ⟨?_, ?_, fun hp hm => ?_⟩
  · simp only [generatePlanResult, hlast]
  · simp only [generatePlanResult, hlast]
    exact h2
  · simp only [generatePlanResult, hlast] at hp ⊢
    rw [h2]
    have hcast : ((monthOf fin.day : ℚ) + 1) < 12 := by exact_mod_cast hm
    have := mul_lt_mul_of_pos_left hcast hp
    linarith

theorem C10_headline_totals_use_different_premiums_witness :
    ((applyPlanRules plan6good (generateFamilyUsageTimeline [mC] cs2) [mC]).getLast? =
        some row6) ∧
    ((generatePlanResult plan6good
        (applyPlanRules plan6good (generateFamilyUsageTimeline [mC] cs2) [mC])
        [mC]).annualPremium =
      (generatePlanResult plan6good
        (applyPlanRules plan6good (generateFamilyUsageTimeline [mC] cs2) [mC])
        [mC]).monthlyPremium * 12 ∧
    (generatePlanResult plan6good
        (applyPlanRules plan6good (generateFamilyUsageTimeline [mC] cs2) [mC])
        [mC]).familyTotals.totalWithPremiums =
      (generatePlanResult plan6good
          (applyPlanRules plan6good (generateFamilyUsageTimeline [mC] cs2) [mC])
          [mC]).monthlyPremium * (monthOf row6.day + 1) +
        (generatePlanResult plan6good
          (applyPlanRules plan6good (generateFamilyUsageTimeline [mC] cs2) [mC])
          [mC]).familyTotals.totalOutOfPocket ∧
    (0 < (generatePlanResult plan6good
        (applyPlanRules plan6good (generateFamilyUsageTimeline [mC] cs2) [mC])
        [mC]).monthlyPremium → monthOf row6.day + 1 < 12 →
      (generatePlanResult plan6good
          (applyPlanRules plan6good (generateFamilyUsageTimeline [mC] cs2) [mC])
          [mC]).familyTotals.totalWithPremiums <
        (generatePlanResult plan6good
            (applyPlanRules plan6good (generateFamilyUsageTimeline [mC] cs2) [mC])
            [mC]).annualPremium +
          (generatePlanResult plan6good
            (applyPlanRules plan6good (generateFamilyUsageTimeline [mC] cs2) [mC])
            [mC]).familyTotals.totalOutOfPocket)) := by
  have hl : (applyPlanRules plan6good (generateFamilyUsageTimeline [mC] cs2) [mC]).getLast? =
      some row6 := by
    norm_num [row6, applyPlanRules, applyRows, applyStep, initState, determinePremiumTier,
      processEventUnderPlan, processMedicalEventUnderPlan, processMedicationEventUnderPlan,
      calculatePostDeductibleCost, getCopayForService, calculateTierCost, tierCostEntry,
      effFamilyDeductible, famOOPCap, jsOr, jsOrInf, minCap, monthOf,
      generateFamilyUsageTimeline, memberEvents, serviceEvents, serviceOccurrenceDay,
      medicationEvents, sortByDay, insertByDay, plan6good, mC, cs2, List.range_succ,
      min_def, max_def]
  exact ⟨hl, C10_headline_totals_use_different_premiums plan6good [mC] cs2 row6 _ rfl hl⟩

end HealthPlan
